import Mathlib

/-!
Shallow embedding of the authentication / token-lifecycle core of the
shoppr-inv repository (backend/src/services/authService.ts,
backend/src/utils/jwt.ts, backend/src/utils/cookies.ts and the auth
controller), together with theorems settling the frozen claims about it.

Modelling conventions:
* Machine-generated identifiers (Prisma cuids for row ids, uuidv4 for JWT
  jwtids) are drawn from a single fresh-counter `DB.fresh`; each database
  row / token consumes one value.
* `jwt.sign` is modelled as a transparent record of the payload plus the
  signing secret and registered claims; `jwt.verify` checks the secret,
  issuer, audience and expiry exactly as the jsonwebtoken library does
  (verification fails once the clock reaches `exp`).
* SHA-256 (`crypto.createHash('sha256')`) and bcrypt are modelled as
  collision-free content wrappers: deterministic and injective, which is
  the standard idealisation of cryptographic hashes.
* Timestamps are milliseconds (`Date.now()`); JWT `iat`/`exp` are seconds
  (`Math.floor(Date.now()/1000)`), as in the source.
* Every thrown `Error(message)` of the service layer is one constructor of
  `AuthError`; two throw sites sharing a message share a constructor, since
  the thrown objects are indistinguishable to callers.
* `async`/`await`: each awaited database call is one atomic step.  The
  refresh operation, whose interleaving matters, is modelled as a small-step
  machine (`refreshStep`) with one step per awaited call; the sequential
  service method is the three-step run of that machine.
-/

namespace Shoppr

/-- Prisma enum `UserRole`. -/
inductive UserRole where
  | CUSTOMER
  | MERCHANT
  | RIDER
deriving DecidableEq, Repr

/-- Prisma enum `AuthProvider`. -/
inductive AuthProvider where
  | EMAIL
  | GOOGLE
deriving DecidableEq, Repr

/-- The `type` discriminator carried in every JWT payload. -/
inductive TokenType where
  | access
  | refresh
deriving DecidableEq, Repr

/-- The two signing secrets `JWT_ACCESS_SECRET` / `JWT_REFRESH_SECRET`
(distinct by configuration). -/
inductive Secret where
  | accessSecret
  | refreshSecret
deriving DecidableEq, Repr

/-- JWT payload (types/auth.ts `JWTPayload`).  User ids are modelled as
naturals. -/
structure JWTPayload where
  userId : Nat
  email : String
  role : UserRole
  type : TokenType
  iat : Nat
  exp : Nat
deriving DecidableEq, Repr

/-- A token produced by `jwt.sign`: the payload together with the signing
secret and the registered claims the source passes to `sign`
(issuer, audience, and for refresh tokens a `jwtid`). -/
structure SignedToken where
  payload : JWTPayload
  secret : Secret
  issuer : String
  audience : String
  jwtid : Option Nat
deriving DecidableEq, Repr

/-- SHA-256 digest of a raw token (`crypto.createHash('sha256')`),
modelled as a collision-free content wrapper: deterministic and injective. -/
structure Digest where
  raw : SignedToken
deriving DecidableEq, Repr

/-- bcrypt digest; `bcrypt.compare` succeeds exactly on the hashed
password, so the digest is modelled as a wrapper of the password and the
cost factor. -/
structure BcryptHash where
  password : String
  cost : Nat
deriving DecidableEq, Repr

/-- Model of `bcrypt.hash(password, saltRounds)`. -/
def bcryptHash (password : String) (cost : Nat) : BcryptHash :=
  { password := password, cost := cost }

/-- Model of `bcrypt.compare(password, hash)`. -/
def bcryptCompare (password : String) (h : BcryptHash) : Bool :=
  password == h.password

/-- Prisma `User` row. -/
structure DBUser where
  id : Nat
  email : String
  name : Option String
  passwordHash : Option BcryptHash
  role : UserRole
  emailVerified : Bool
  lastLoginAt : Option Nat
  createdAt : Nat
  updatedAt : Nat
deriving DecidableEq, Repr

/-- The public user projection (types/auth.ts `User`): every `User` field
except the password hash. -/
structure PublicUser where
  id : Nat
  email : String
  name : Option String
  role : UserRole
  emailVerified : Bool
  lastLoginAt : Option Nat
  createdAt : Nat
  updatedAt : Nat
deriving DecidableEq, Repr

/-- The projection used by every service response. -/
def DBUser.toPublic (u : DBUser) : PublicUser :=
  { id := u.id, email := u.email, name := u.name, role := u.role
    emailVerified := u.emailVerified, lastLoginAt := u.lastLoginAt
    createdAt := u.createdAt, updatedAt := u.updatedAt }

/-- Prisma `RefreshToken` row (`refresh_tokens` table): `tokenHash` is
unique, `isRevoked` defaults to false, `userId` is a foreign key into
`users`. -/
structure RefreshTokenRecord where
  id : Nat
  userId : Nat
  tokenHash : Digest
  userAgent : Option String
  ipAddress : Option String
  isRevoked : Bool
  expiresAt : Nat
  createdAt : Nat
deriving DecidableEq, Repr

/-- Prisma `ProviderAccount` row. -/
structure ProviderAccount where
  id : Nat
  userId : Nat
  provider : AuthProvider
  providerAccountId : String
  providerEmail : String
  providerName : String
  accessToken : Option String
  refreshToken : Option String
  expiresAt : Option Nat
deriving DecidableEq, Repr

/-- The relational store, plus the fresh-identifier supply. -/
structure DB where
  users : List DBUser
  refreshTokens : List RefreshTokenRecord
  providerAccounts : List ProviderAccount
  fresh : Nat
deriving DecidableEq, Repr

/-- Error cases of the auth service and jwt utils, one constructor per
distinct thrown `Error(message)`.  Note that a missing refresh-token
record, a revoked record, and a failed token verification all throw the
same message 'Invalid refresh token', hence share one constructor. -/
inductive AuthError where
  | userAlreadyExists
  | invalidEmailOrPassword
  | invalidRoleForAccount
  | googleOAuthRequired
  | noGoogleAccessToken
  | googleEmailNotVerified
  | incompleteGoogleInfo
  | noProviderAccountId
  | invalidAccessToken
  | invalidRefreshToken
  | refreshTokenExpired
  | userNotFound
deriving DecidableEq, Repr

def JWT_ISSUER : String := "bharat-shops-hub"

def JWT_AUDIENCE : String := "bharat-shops-hub-users"

def ACCESS_TOKEN_TTL_MIN : Nat := 15

def REFRESH_TOKEN_TTL_DAYS : Nat := 30

/-- The constant 30 * 24 * 60 * 60 * 1000, the refresh-record lifetime
used by every refresh-token insert. -/
def thirtyDaysMs : Nat := 30 * 24 * 60 * 60 * 1000

/-- jwt.ts `generateAccessToken`. -/
def generateAccessToken (user : DBUser) (nowMs : Nat) : SignedToken :=
  { payload :=
      { userId := user.id, email := user.email, role := user.role
        type := TokenType.access, iat := nowMs / 1000
        exp := nowMs / 1000 + ACCESS_TOKEN_TTL_MIN * 60 }
    secret := Secret.accessSecret
    issuer := JWT_ISSUER, audience := JWT_AUDIENCE, jwtid := none }

/-- jwt.ts `generateRefreshToken`; `jti` models the fresh `uuidv4()` jwtid. -/
def generateRefreshToken (user : DBUser) (nowMs : Nat) (jti : Nat) : SignedToken :=
  { payload :=
      { userId := user.id, email := user.email, role := user.role
        type := TokenType.refresh, iat := nowMs / 1000
        exp := nowMs / 1000 + REFRESH_TOKEN_TTL_DAYS * 24 * 60 * 60 }
    secret := Secret.refreshSecret
    issuer := JWT_ISSUER, audience := JWT_AUDIENCE, jwtid := some jti }

/-- The checks `jwt.verify` performs: signature (secret), issuer, audience,
and expiry (verification fails once the clock reaches `exp`). -/
def jwtVerify (t : SignedToken) (secret : Secret) (nowMs : Nat) : Bool :=
  t.secret == secret && t.issuer == JWT_ISSUER && t.audience == JWT_AUDIENCE
    && decide (nowMs / 1000 < t.payload.exp)

/-- jwt.ts `verifyAccessToken`: any failure of `jwt.verify` and a wrong
`payload.type` are both re-thrown as 'Invalid access token'. -/
def verifyAccessToken (t : SignedToken) (nowMs : Nat) : Except AuthError JWTPayload :=
  if jwtVerify t Secret.accessSecret nowMs && (t.payload.type == TokenType.access)
  then Except.ok t.payload
  else Except.error AuthError.invalidAccessToken

/-- jwt.ts `verifyRefreshToken`: any failure of `jwt.verify` and a wrong
`payload.type` are both re-thrown as 'Invalid refresh token'. -/
def verifyRefreshToken (t : SignedToken) (nowMs : Nat) : Except AuthError JWTPayload :=
  if jwtVerify t Secret.refreshSecret nowMs && (t.payload.type == TokenType.refresh)
  then Except.ok t.payload
  else Except.error AuthError.invalidRefreshToken

/-- jwt.ts `hashRefreshToken`. -/
def hashRefreshToken (t : SignedToken) : Digest :=
  { raw := t }

/-- jwt.ts `generateTokenPair`. -/
structure TokenPair where
  accessToken : SignedToken
  refreshToken : SignedToken
  refreshTokenHash : Digest
deriving DecidableEq, Repr

def generateTokenPair (user : DBUser) (nowMs : Nat) (jti : Nat) : TokenPair :=
  let accessToken := generateAccessToken user nowMs
  let refreshToken := generateRefreshToken user nowMs jti
  { accessToken := accessToken, refreshToken := refreshToken
    refreshTokenHash := hashRefreshToken refreshToken }

/-- types/auth.ts `AuthResponse` (the `success` flag is subsumed by
`Except`). -/
structure AuthResponse where
  message : String
  user : PublicUser
  accessToken : SignedToken
deriving DecidableEq, Repr

/-- Lookup of a user row by its unique email column. -/
def findUserByEmail (db : DB) (email : String) : Option DBUser :=
  db.users.find? (fun u => u.email == email)

/-- Lookup of a user row by its primary key. -/
def findUserById (db : DB) (id : Nat) : Option DBUser :=
  db.users.find? (fun u => u.id == id)

/-- Lookup of a refresh-token row by its unique tokenHash column. -/
def findRefreshTokenByHash (db : DB) (h : Digest) : Option RefreshTokenRecord :=
  db.refreshTokens.find? (fun r => r.tokenHash == h)

/-- types/auth.ts `RegisterRequest`. -/
structure RegisterRequest where
  email : String
  password : String
  name : Option String
  role : UserRole
deriving DecidableEq, Repr

/-- types/auth.ts `LoginRequest`. -/
structure LoginRequest where
  email : String
  password : String
  role : UserRole
deriving DecidableEq, Repr

/-- types/auth.ts `OAuthState` (the parsed `state` JSON). -/
structure OAuthState where
  role : UserRole
  nonce : String
  redirectUrl : String
deriving DecidableEq, Repr

/-- The token bundle returned by `exchangeCodeForTokens` (OAuth bridge
response, an external input to `googleAuth`). -/
structure GoogleTokens where
  access_token : Option String
  refresh_token : Option String
  expiry_date : Option Nat
deriving DecidableEq, Repr

/-- The profile returned by `getGoogleUserInfo` (external input; the source
treats it as `any`, so every field may be absent). -/
structure GoogleUserInfo where
  sub : Option String
  id : Option String
  email : Option String
  email_verified : Option Bool
  name : Option String
deriving DecidableEq, Repr

/-- JavaScript truthiness of an optional string (absent and `''` are falsy). -/
def strTruthy : Option String → Bool
  | none => false
  | some s => !(s == "")

/-- JavaScript `a || b` on optional strings: the first truthy operand,
otherwise `b`. -/
def strOr (a b : Option String) : Option String :=
  if strTruthy a then a else b

/-- JavaScript `String.prototype.toLowerCase()` on the ASCII strings used
as emails (spelled as a character map so that it evaluates in the
kernel). -/
def emailLower (s : String) : String := String.mk (s.data.map Char.toLower)

/-- authService.ts `register`.  Fresh-id usage: `db.fresh` for the created
user row, `db.fresh + 1` for the refresh token's jwtid, `db.fresh + 2` for
the refresh-token row. -/
def register (data : RegisterRequest) (userAgent ipAddress : Option String)
    (nowMs : Nat) (db : DB) : Except AuthError AuthResponse × DB :=
  match findUserByEmail db (emailLower data.email) with
  | some _ => (Except.error AuthError.userAlreadyExists, db)
  | none =>
    let passwordHash := bcryptHash data.password 12
    let user : DBUser :=
      { id := db.fresh, email := emailLower data.email, name := data.name
        passwordHash := some passwordHash, role := data.role
        emailVerified := false, lastLoginAt := none
        createdAt := nowMs, updatedAt := nowMs }
    let pair := generateTokenPair user nowMs (db.fresh + 1)
    let tokenRecord : RefreshTokenRecord :=
      { id := db.fresh + 2, userId := user.id, tokenHash := pair.refreshTokenHash
        userAgent := userAgent, ipAddress := ipAddress, isRevoked := false
        expiresAt := nowMs + thirtyDaysMs, createdAt := nowMs }
    (Except.ok { message := "User registered successfully"
                 user := user.toPublic, accessToken := pair.accessToken },
     { db with users := db.users ++ [user]
               refreshTokens := db.refreshTokens ++ [tokenRecord]
               fresh := db.fresh + 3 })

/-- authService.ts `login`.  The checks happen in source order: user
lookup, then role, then password-hash presence, then password
verification; the response is built from the user row fetched before the
last-login update. -/
def login (data : LoginRequest) (userAgent ipAddress : Option String)
    (nowMs : Nat) (db : DB) : Except AuthError AuthResponse × DB :=
  match findUserByEmail db (emailLower data.email) with
  | none => (Except.error AuthError.invalidEmailOrPassword, db)
  | some user =>
    if user.role ≠ data.role then
      (Except.error AuthError.invalidRoleForAccount, db)
    else
      match user.passwordHash with
      | none => (Except.error AuthError.googleOAuthRequired, db)
      | some ph =>
        if ¬ bcryptCompare data.password ph then
          (Except.error AuthError.invalidEmailOrPassword, db)
        else
          let db1 := { db with users := db.users.map (fun (u : DBUser) =>
            if u.id == user.id then { u with lastLoginAt := some nowMs, updatedAt := nowMs }
            else u) }
          let pair := generateTokenPair user nowMs db1.fresh
          let tokenRecord : RefreshTokenRecord :=
            { id := db1.fresh + 1, userId := user.id, tokenHash := pair.refreshTokenHash
              userAgent := userAgent, ipAddress := ipAddress, isRevoked := false
              expiresAt := nowMs + thirtyDaysMs, createdAt := nowMs }
          (Except.ok { message := "Login successful"
                       user := user.toPublic, accessToken := pair.accessToken },
           { db1 with refreshTokens := db1.refreshTokens ++ [tokenRecord]
                      fresh := db1.fresh + 2 })

/-- Tail of authService.ts `googleAuth` common to both account branches:
update last login, generate a token pair, store the refresh-token hash,
and build the response from the user row held by the caller. -/
def googleAuthIssue (user : DBUser) (userAgent ipAddress : Option String)
    (nowMs : Nat) (db : DB) : Except AuthError AuthResponse × DB :=
  let db1 := { db with users := db.users.map (fun (u : DBUser) =>
    if u.id == user.id then { u with lastLoginAt := some nowMs, updatedAt := nowMs }
    else u) }
  let pair := generateTokenPair user nowMs db1.fresh
  let tokenRecord : RefreshTokenRecord :=
    { id := db1.fresh + 1, userId := user.id, tokenHash := pair.refreshTokenHash
      userAgent := userAgent, ipAddress := ipAddress, isRevoked := false
      expiresAt := nowMs + thirtyDaysMs, createdAt := nowMs }
  (Except.ok { message := "Google OAuth login successful"
               user := user.toPublic, accessToken := pair.accessToken },
   { db1 with refreshTokens := db1.refreshTokens ++ [tokenRecord]
              fresh := db1.fresh + 2 })

/-- Account phase of authService.ts `googleAuth`: look the user up by
email; for an existing user check the role and create or update the
linked GOOGLE `ProviderAccount`; otherwise create a user (with
`emailVerified := true`) together with its provider account. -/
def googleAuthAccount (role : UserRole) (tokens : GoogleTokens)
    (email gname pid : String) (userAgent ipAddress : Option String)
    (nowMs : Nat) (db : DB) : Except AuthError AuthResponse × DB :=
  match findUserByEmail db (emailLower email) with
  | some user =>
    if user.role ≠ role then
      (Except.error AuthError.invalidRoleForAccount, db)
    else
      let googleAccounts := db.providerAccounts.filter (fun p =>
        p.userId == user.id && p.provider == AuthProvider.GOOGLE)
      let newAccount : ProviderAccount :=
        { id := db.fresh, userId := user.id, provider := AuthProvider.GOOGLE
          providerAccountId := pid, providerEmail := email, providerName := gname
          accessToken := tokens.access_token, refreshToken := tokens.refresh_token
          expiresAt := tokens.expiry_date }
      let db1 :=
        match googleAccounts with
        | [] =>
          { db with providerAccounts := db.providerAccounts ++ [newAccount]
                    fresh := db.fresh + 1 }
        | pa :: _ =>
          { db with providerAccounts := db.providerAccounts.map (fun (p : ProviderAccount) =>
              if p.id == pa.id then
                { p with providerName := gname
                         accessToken := tokens.access_token
                         refreshToken := tokens.refresh_token
                         expiresAt := tokens.expiry_date }
              else p) }
      googleAuthIssue user userAgent ipAddress nowMs db1
  | none =>
    let newUser : DBUser :=
      { id := db.fresh, email := emailLower email, name := some gname
        passwordHash := none, role := role, emailVerified := true
        lastLoginAt := none, createdAt := nowMs, updatedAt := nowMs }
    let newAccount : ProviderAccount :=
      { id := db.fresh + 1, userId := newUser.id, provider := AuthProvider.GOOGLE
        providerAccountId := pid, providerEmail := email, providerName := gname
        accessToken := tokens.access_token, refreshToken := tokens.refresh_token
        expiresAt := tokens.expiry_date }
    let db1 :=
      { db with users := db.users ++ [newUser]
                providerAccounts := db.providerAccounts ++ [newAccount]
                fresh := db.fresh + 2 }
    googleAuthIssue newUser userAgent ipAddress nowMs db1

/-- authService.ts `googleAuth`.  The OAuth bridge responses
(`exchangeCodeForTokens`, `getGoogleUserInfo`) are external collaborators
and enter as inputs; the `state` parameter enters already JSON-parsed.
Checks in source order: presence of the provider access token, the
`email_verified === false` rejection, email/name presence (JavaScript
truthiness, so `''` is also rejected), provider id `sub || id`. -/
def googleAuth (oauthState : OAuthState) (tokens : GoogleTokens)
    (info : GoogleUserInfo) (userAgent ipAddress : Option String)
    (nowMs : Nat) (db : DB) : Except AuthError AuthResponse × DB :=
  let role := oauthState.role
  if ¬ strTruthy tokens.access_token then
    (Except.error AuthError.noGoogleAccessToken, db)
  else if info.email_verified == some false then
    (Except.error AuthError.googleEmailNotVerified, db)
  else if ¬ (strTruthy info.email && strTruthy info.name) then
    (Except.error AuthError.incompleteGoogleInfo, db)
  else
    match strOr info.sub info.id with
    | none => (Except.error AuthError.noProviderAccountId, db)
    | some pid =>
      if pid == "" then (Except.error AuthError.noProviderAccountId, db)
      else
        match info.email, info.name with
        | some email, some gname =>
          googleAuthAccount role tokens email gname pid userAgent ipAddress nowMs db
        | _, _ => (Except.error AuthError.incompleteGoogleInfo, db)

/-- Program counter of one `refreshToken` call.  Each constructor ends at
one of the awaited database calls of the source, which are the atomic
steps: the verify-and-read step, the revoking update, and the creating
insert. -/
inductive RefreshPC where
  | start
  | revokeOld (recordId : Nat) (user : DBUser)
  | storeNew (user : DBUser)
  | done (resp : AuthResponse)
  | failed (e : AuthError)
deriving DecidableEq, Repr

/-- One atomic step of authService.ts `refreshToken`:
`start`: verify the raw token, look its hash up
(the unique-tokenHash lookup joined with the owning user row), and run the
revoked / expired checks — a missing record and a revoked record throw the
same 'Invalid refresh token'.
`revokeOld`: `prisma.refreshToken.update({ data: { isRevoked: true } })`.
`storeNew`: generate the new pair and insert its hash record.
The user lookup joined by `include: { user: true }` cannot fail under the
foreign-key constraint of the schema; the `none` branch is unreachable
for well-formed stores. -/
def refreshStep (token : SignedToken) (userAgent ipAddress : Option String)
    (nowMs : Nat) : RefreshPC → DB → RefreshPC × DB
  | RefreshPC.start, db =>
    match verifyRefreshToken token nowMs with
    | Except.error e => (RefreshPC.failed e, db)
    | Except.ok _ =>
      let tokenHash := hashRefreshToken token
      match findRefreshTokenByHash db tokenHash with
      | none => (RefreshPC.failed AuthError.invalidRefreshToken, db)
      | some r =>
        if r.isRevoked then (RefreshPC.failed AuthError.invalidRefreshToken, db)
        else if r.expiresAt < nowMs then (RefreshPC.failed AuthError.refreshTokenExpired, db)
        else
          match findUserById db r.userId with
          | none => (RefreshPC.failed AuthError.invalidRefreshToken, db)
          | some u => (RefreshPC.revokeOld r.id u, db)
  | RefreshPC.revokeOld recordId u, db =>
    (RefreshPC.storeNew u,
     { db with refreshTokens := db.refreshTokens.map (fun (r : RefreshTokenRecord) =>
         if r.id == recordId then { r with isRevoked := true } else r) })
  | RefreshPC.storeNew u, db =>
    let pair := generateTokenPair u nowMs db.fresh
    let tokenRecord : RefreshTokenRecord :=
      { id := db.fresh + 1, userId := u.id, tokenHash := pair.refreshTokenHash
        userAgent := userAgent, ipAddress := ipAddress, isRevoked := false
        expiresAt := nowMs + thirtyDaysMs, createdAt := nowMs }
    (RefreshPC.done { message := "Token refreshed successfully"
                      user := u.toPublic, accessToken := pair.accessToken },
     { db with refreshTokens := db.refreshTokens ++ [tokenRecord]
               fresh := db.fresh + 2 })
  | RefreshPC.done r, db => (RefreshPC.done r, db)
  | RefreshPC.failed e, db => (RefreshPC.failed e, db)

/-- authService.ts `refreshToken` run sequentially: the three awaited
steps of one call, uninterleaved. -/
def refreshToken (token : SignedToken) (userAgent ipAddress : Option String)
    (nowMs : Nat) (db : DB) : Except AuthError AuthResponse × DB :=
  match refreshStep token userAgent ipAddress nowMs RefreshPC.start db with
  | (pc1, db1) =>
    match refreshStep token userAgent ipAddress nowMs pc1 db1 with
    | (pc2, db2) =>
      match refreshStep token userAgent ipAddress nowMs pc2 db2 with
      | (RefreshPC.done resp, db3) => (Except.ok resp, db3)
      | (RefreshPC.failed e, db3) => (Except.error e, db3)
      | (_, db3) => (Except.error AuthError.invalidRefreshToken, db3)

/-- Two concurrent `refreshToken` calls presenting the same raw token:
the schedule picks which call performs its next atomic step
(`true` = first call). -/
def runTwo (token : SignedToken) (userAgent ipAddress : Option String)
    (nowMs : Nat) : List Bool → RefreshPC × RefreshPC × DB → RefreshPC × RefreshPC × DB
  | [], s => s
  | b :: rest, (p1, p2, db) =>
    if b then
      let s := refreshStep token userAgent ipAddress nowMs p1 db
      runTwo token userAgent ipAddress nowMs rest (s.1, p2, s.2)
    else
      let s := refreshStep token userAgent ipAddress nowMs p2 db
      runTwo token userAgent ipAddress nowMs rest (p1, s.1, s.2)

/-- Whether a refresh call has completed successfully. -/
def RefreshPC.isSuccess : RefreshPC → Bool
  | RefreshPC.done _ => true
  | _ => false

/-- authService.ts `logout`: hash the presented token and
set the revoked flag on every row matching the hash; total,
never throws, succeeds also when nothing matches. -/
def logout (token : SignedToken) (db : DB) : DB :=
  { db with refreshTokens := db.refreshTokens.map (fun (r : RefreshTokenRecord) =>
      if r.tokenHash == hashRefreshToken token then { r with isRevoked := true } else r) }

/-- authService.ts `logoutAll`:
set the revoked flag on every row owned by the user. -/
def logoutAll (userId : Nat) (db : DB) : DB :=
  { db with refreshTokens := db.refreshTokens.map (fun (r : RefreshTokenRecord) =>
      if r.userId == userId then { r with isRevoked := true } else r) }

/-- authService.ts `getProfile`. -/
def getProfile (userId : Nat) (db : DB) : Except AuthError PublicUser :=
  match findUserById db userId with
  | none => Except.error AuthError.userNotFound
  | some u => Except.ok u.toPublic

/-- A `res.cookie(name, value, options)` call (utils/cookies.ts).  Cookie
values are the serialised tokens. -/
structure SetCookie where
  name : String
  value : SignedToken
  httpOnly : Bool
  maxAgeMs : Nat
deriving DecidableEq, Repr

/-- cookies.ts `setAccessTokenCookie` (15-minute maxAge). -/
def setAccessTokenCookie (t : SignedToken) : SetCookie :=
  { name := "accessToken", value := t, httpOnly := true, maxAgeMs := 15 * 60 * 1000 }

/-- cookies.ts `setRefreshTokenCookie` (30-day maxAge). -/
def setRefreshTokenCookie (t : SignedToken) : SetCookie :=
  { name := "refreshToken", value := t, httpOnly := true, maxAgeMs := thirtyDaysMs }

/-- The auth controller's `register` handler, from its call into the
service on a validated body: on success it sets the two cookies exactly as
the source does — `setAccessTokenCookie(res, result.accessToken)` and
`setRefreshTokenCookie(res, result.accessToken)` — note the source passes
`result.accessToken` to both. -/
def registerHandler (data : RegisterRequest) (userAgent ipAddress : Option String)
    (nowMs : Nat) (db : DB) : Except AuthError (List SetCookie × PublicUser) × DB :=
  match register data userAgent ipAddress nowMs db with
  | (Except.error e, db1) => (Except.error e, db1)
  | (Except.ok result, db1) =>
    (Except.ok ([setAccessTokenCookie result.accessToken,
                 setRefreshTokenCookie result.accessToken], result.user), db1)

/-- The auth controller's `login` handler; on success it likewise passes
`result.accessToken` to both cookie setters. -/
def loginHandler (data : LoginRequest) (userAgent ipAddress : Option String)
    (nowMs : Nat) (db : DB) : Except AuthError (List SetCookie × PublicUser) × DB :=
  match login data userAgent ipAddress nowMs db with
  | (Except.error e, db1) => (Except.error e, db1)
  | (Except.ok result, db1) =>
    (Except.ok ([setAccessTokenCookie result.accessToken,
                 setRefreshTokenCookie result.accessToken], result.user), db1)

/-- The auth controller's `refreshToken` handler (token taken from the
cookie or body); on success it passes `result.accessToken` to both cookie
setters. -/
def refreshHandler (token : SignedToken) (userAgent ipAddress : Option String)
    (nowMs : Nat) (db : DB) : Except AuthError (List SetCookie × PublicUser) × DB :=
  match refreshToken token userAgent ipAddress nowMs db with
  | (Except.error e, db1) => (Except.error e, db1)
  | (Except.ok result, db1) =>
    (Except.ok ([setAccessTokenCookie result.accessToken,
                 setRefreshTokenCookie result.accessToken], result.user), db1)

/-- Freshness of a record's stored jwtid relative to the id supply: the
digest wraps a token whose jwtid, if any, is below the bound. -/
def jtiBelow (r : RefreshTokenRecord) (bound : Nat) : Bool :=
  match r.tokenHash.raw.jwtid with
  | none => true
  | some j => j < bound

/-- Well-formedness of the store, maintained by the schema and the id
generators: the unique index on `tokenHash`, primary-key uniqueness,
freshness of all consumed ids/jwtids, and the `userId` foreign key. -/
def DB.Wf (db : DB) : Prop :=
  (db.refreshTokens.map (fun (r : RefreshTokenRecord) => r.tokenHash)).Nodup
  ∧ (db.refreshTokens.map (fun (r : RefreshTokenRecord) => r.id)).Nodup
  ∧ (∀ r ∈ db.refreshTokens, r.id < db.fresh)
  ∧ (∀ r ∈ db.refreshTokens, jtiBelow r db.fresh = true)
  ∧ (∀ r ∈ db.refreshTokens, ∃ u ∈ db.users, u.id = r.userId)

instance (db : DB) : Decidable db.Wf := by
  unfold DB.Wf
  infer_instance

/-! ## Helper lemmas -/

instance {e a : Type} [DecidableEq e] [DecidableEq a] : DecidableEq (Except e a) :=
  fun x y =>
    match x, y with
    | Except.ok v, Except.ok w => decidable_of_iff (v = w) (by simp)
    | Except.error v, Except.error w => decidable_of_iff (v = w) (by simp)
    | Except.ok _, Except.error _ => Decidable.isFalse (by simp)
    | Except.error _, Except.ok _ => Decidable.isFalse (by simp)

@[simp] theorem tokenHash_setRevoked (r : RefreshTokenRecord) :
    ({ r with isRevoked := true } : RefreshTokenRecord).tokenHash = r.tokenHash := rfl

@[simp] theorem id_setRevoked (r : RefreshTokenRecord) :
    ({ r with isRevoked := true } : RefreshTokenRecord).id = r.id := rfl

@[simp] theorem userId_setRevoked (r : RefreshTokenRecord) :
    ({ r with isRevoked := true } : RefreshTokenRecord).userId = r.userId := rfl

@[simp] theorem expiresAt_setRevoked (r : RefreshTokenRecord) :
    ({ r with isRevoked := true } : RefreshTokenRecord).expiresAt = r.expiresAt := rfl

@[simp] theorem isRevoked_setRevoked (r : RefreshTokenRecord) :
    ({ r with isRevoked := true } : RefreshTokenRecord).isRevoked = true := rfl

theorem setRevoked_eq_self (r : RefreshTokenRecord) (h : r.isRevoked = true) :
    ({ r with isRevoked := true } : RefreshTokenRecord) = r := by
  cases r
  simp_all

/-- Lookup by token hash commutes with any record map preserving the
hash (the revoking updates do). -/
theorem find?_hash_map (l : List RefreshTokenRecord)
    (f : RefreshTokenRecord → RefreshTokenRecord)
    (hf : ∀ r, (f r).tokenHash = r.tokenHash) (h : Digest) :
    (l.map f).find? (fun r => r.tokenHash == h)
      = (l.find? (fun r => r.tokenHash == h)).map f := by
  have hp : ((fun r : RefreshTokenRecord => r.tokenHash == h) ∘ f)
      = (fun r : RefreshTokenRecord => r.tokenHash == h) := by
    funext r
    simp [Function.comp, hf]
  rw [List.find?_map, hp]

theorem find?_of_hash_nodup (l : List RefreshTokenRecord) (r0 : RefreshTokenRecord)
    (hnd : (l.map (fun r => r.tokenHash)).Nodup) (hmem : r0 ∈ l) :
    l.find? (fun r => r.tokenHash == r0.tokenHash) = some r0 := by
  induction l with
  | nil => cases hmem
  | cons a l ih =>
    simp only [List.map_cons, List.nodup_cons] at hnd
    rcases List.mem_cons.mp hmem with h | h
    · subst h
      exact List.find?_cons_of_pos _ (beq_self_eq_true _)
    · have hne : a.tokenHash ≠ r0.tokenHash := by
        intro hc
        exact hnd.1 (hc ▸ List.mem_map_of_mem (fun r => r.tokenHash) h)
      rw [List.find?_cons_of_neg _ (by simpa using hne)]
      exact ih hnd.2 h

theorem verifyRefreshToken_cases (t : SignedToken) (nowMs : Nat) :
    verifyRefreshToken t nowMs = Except.ok t.payload
    ∨ verifyRefreshToken t nowMs = Except.error AuthError.invalidRefreshToken := by
  unfold verifyRefreshToken
  split
  · exact Or.inl rfl
  · exact Or.inr rfl

/-- The refresh-token row inserted by the `storeNew` step of a refresh
call, expressed over the store the call started from (the revoking update
does not touch the fresh-id supply). -/
def rotatedRecord (u : DBUser) (ua ip : Option String) (nowMs : Nat) (db : DB) :
    RefreshTokenRecord :=
  { id := db.fresh + 1, userId := u.id
    tokenHash := hashRefreshToken (generateRefreshToken u nowMs db.fresh)
    userAgent := ua, ipAddress := ip, isRevoked := false
    expiresAt := nowMs + thirtyDaysMs, createdAt := nowMs }

/-- The verify-and-read step of a refresh call on an active, unexpired
record moves to the revoking update without touching the store. -/
theorem refreshStep_start_ok (tok : SignedToken) (ua ip : Option String)
    (nowMs : Nat) (db : DB) (r0 : RefreshTokenRecord) (u : DBUser)
    (hver : verifyRefreshToken tok nowMs = Except.ok tok.payload)
    (hfind : findRefreshTokenByHash db (hashRefreshToken tok) = some r0)
    (hact : r0.isRevoked = false)
    (hexp : ¬ r0.expiresAt < nowMs)
    (huser : findUserById db r0.userId = some u) :
    refreshStep tok ua ip nowMs RefreshPC.start db = (RefreshPC.revokeOld r0.id u, db) := by
  simp only [refreshStep, hver, hfind, hact, huser]
  simp [hexp]

/-- The verify-and-read step of a refresh call on a revoked record fails
with the generic invalid-token error (the same one used when no record
matches or when verification fails). -/
theorem refreshStep_start_revoked (tok : SignedToken) (ua ip : Option String)
    (nowMs : Nat) (db : DB) (r0 : RefreshTokenRecord)
    (hfind : findRefreshTokenByHash db (hashRefreshToken tok) = some r0)
    (hrev : r0.isRevoked = true) :
    refreshStep tok ua ip nowMs RefreshPC.start db
      = (RefreshPC.failed AuthError.invalidRefreshToken, db) := by
  rcases verifyRefreshToken_cases tok nowMs with h | h
  · simp only [refreshStep, h, hfind, hrev]
    simp
  · simp only [refreshStep, h]

/-- Once the first step of a refresh call has read an active record, the
remaining two steps complete unconditionally: the presented record is
revoked and the fresh pair's hash row is inserted. -/
theorem refreshToken_of_start_ok (tok : SignedToken) (ua ip : Option String)
    (nowMs : Nat) (db : DB) (rid : Nat) (u : DBUser)
    (h : refreshStep tok ua ip nowMs RefreshPC.start db = (RefreshPC.revokeOld rid u, db)) :
    refreshToken tok ua ip nowMs db =
      (Except.ok { message := "Token refreshed successfully", user := u.toPublic
                   accessToken := generateAccessToken u nowMs },
       { users := db.users
         refreshTokens := (db.refreshTokens.map (fun r =>
             if r.id == rid then { r with isRevoked := true } else r))
           ++ [rotatedRecord u ua ip nowMs db]
         providerAccounts := db.providerAccounts
         fresh := db.fresh + 2 }) := by
  unfold refreshToken
  rw [h]
  rfl

/-- A refresh call whose first step failed returns that failure and
leaves the store unchanged. -/
theorem refreshToken_of_start_failed (tok : SignedToken) (ua ip : Option String)
    (nowMs : Nat) (db : DB) (e : AuthError)
    (h : refreshStep tok ua ip nowMs RefreshPC.start db = (RefreshPC.failed e, db)) :
    refreshToken tok ua ip nowMs db = (Except.error e, db) := by
  unfold refreshToken
  rw [h]
  rfl

theorem logout_map_pointwise (h : Digest) (r : RefreshTokenRecord) :
    (fun x : RefreshTokenRecord => if x.tokenHash == h then { x with isRevoked := true } else x)
      ((fun x : RefreshTokenRecord => if x.tokenHash == h then { x with isRevoked := true } else x) r)
    = (fun x : RefreshTokenRecord => if x.tokenHash == h then { x with isRevoked := true } else x) r := by
  by_cases hc : r.tokenHash = h
  · simp [hc, setRevoked_eq_self]
  · simp [hc]

/-! ## Concrete scenarios used by the witnesses -/

/-- A registered customer row. -/
def demoUser : DBUser :=
  { id := 1, email := "alice@example.com", name := some "Alice"
    passwordHash := some (bcryptHash "Secret123!" 12), role := UserRole.CUSTOMER
    emailVerified := false, lastLoginAt := none, createdAt := 0, updatedAt := 0 }

/-- A store holding only `demoUser`. -/
def demoDB : DB :=
  { users := [demoUser], refreshTokens := [], providerAccounts := [], fresh := 2 }

/-- A login request matching `demoUser` (mixed-case email, correct
password, matching role). -/
def demoLoginOk : LoginRequest :=
  { email := "Alice@Example.com", password := "Secret123!", role := UserRole.CUSTOMER }

/-- An OAuth-only merchant row (no password hash). -/
def oauthOnlyUser : DBUser :=
  { id := 3, email := "carol@example.com", name := some "Carol"
    passwordHash := none, role := UserRole.MERCHANT
    emailVerified := true, lastLoginAt := none, createdAt := 0, updatedAt := 0 }

/-- A store holding only `oauthOnlyUser`. -/
def oauthDB : DB :=
  { users := [oauthOnlyUser], refreshTokens := [], providerAccounts := [], fresh := 4 }

/-- A login request for `oauthOnlyUser`'s email under the wrong role. -/
def crossRoleLogin : LoginRequest :=
  { email := "carol@example.com", password := "whatever", role := UserRole.CUSTOMER }

/-! ## Claim theorems -/

/-- C7: for every user, verifying a token produced by
`generateAccessToken` with expected type 'access' (while unexpired)
recovers exactly the original user id, email and role; verifying the same
token as a refresh token fails with the invalid-token error of that
verifier. -/
theorem access_token_round_trip (u : DBUser) (nowMs now2 : Nat)
    (h : now2 / 1000 < nowMs / 1000 + ACCESS_TOKEN_TTL_MIN * 60) :
    (verifyAccessToken (generateAccessToken u nowMs) now2
        = Except.ok (generateAccessToken u nowMs).payload
      ∧ (generateAccessToken u nowMs).payload.userId = u.id
      ∧ (generateAccessToken u nowMs).payload.email = u.email
      ∧ (generateAccessToken u nowMs).payload.role = u.role)
    ∧ verifyRefreshToken (generateAccessToken u nowMs) now2
        = Except.error AuthError.invalidRefreshToken := by
  refine ⟨⟨?_, rfl, rfl, rfl⟩, ?_⟩
  · simp [verifyAccessToken, jwtVerify, generateAccessToken, h]
  · simp [verifyRefreshToken, jwtVerify, generateAccessToken]

/-- Witness for `access_token_round_trip` at `demoUser` and clock 0. -/
theorem access_token_round_trip_witness :
    ((0 : Nat) / 1000 < 0 / 1000 + ACCESS_TOKEN_TTL_MIN * 60)
    ∧ ((verifyAccessToken (generateAccessToken demoUser 0) 0
          = Except.ok (generateAccessToken demoUser 0).payload
        ∧ (generateAccessToken demoUser 0).payload.userId = demoUser.id
        ∧ (generateAccessToken demoUser 0).payload.email = demoUser.email
        ∧ (generateAccessToken demoUser 0).payload.role = demoUser.role)
      ∧ verifyRefreshToken (generateAccessToken demoUser 0) 0
          = Except.error AuthError.invalidRefreshToken) :=
  ⟨by decide, access_token_round_trip demoUser 0 0 (by decide)⟩

/-- C9: `logout` is a total no-op on a token whose matching records are
already revoked (in particular also when no record matches at all): the
call never fails by type, it changes no state when every match is already
revoked, and a second `logout` with the same token never changes state. -/
theorem logout_idempotent (tok : SignedToken) (db : DB)
    (hprev : ∀ r ∈ db.refreshTokens, r.tokenHash = hashRefreshToken tok → r.isRevoked = true) :
    logout tok db = db
    ∧ logout tok (logout tok db) = logout tok db
    ∧ (∀ db2 : DB, logout tok (logout tok db2) = logout tok db2) := by
  have hidem : ∀ db2 : DB, logout tok (logout tok db2) = logout tok db2 := by
    intro db2
    unfold logout
    simp only [List.map_map]
    congr 1
    apply List.map_congr_left
    intro r _
    exact logout_map_pointwise (hashRefreshToken tok) r
  have h1 : logout tok db = db := by
    unfold logout
    have hmap : db.refreshTokens.map (fun r : RefreshTokenRecord =>
        if r.tokenHash == hashRefreshToken tok then { r with isRevoked := true } else r)
        = db.refreshTokens := by
      conv_rhs => rw [← List.map_id db.refreshTokens]
      apply List.map_congr_left
      intro r hr
      by_cases hc : r.tokenHash = hashRefreshToken tok
      · rw [if_pos (by simp [hc])]
        exact setRevoked_eq_self r (hprev r hr hc)
      · rw [if_neg (by simp [hc])]
        rfl
    rw [hmap]
  exact ⟨h1, hidem db, hidem⟩

/-- Witness for `logout_idempotent`: a store whose only matching record is
already revoked. -/
theorem logout_idempotent_witness :
    (∀ r ∈ ({ users := [demoUser]
              refreshTokens := [{ id := 5, userId := 1
                                  tokenHash := hashRefreshToken (generateRefreshToken demoUser 0 6)
                                  userAgent := none, ipAddress := none, isRevoked := true
                                  expiresAt := thirtyDaysMs, createdAt := 0 }]
              providerAccounts := [], fresh := 7 } : DB).refreshTokens,
        r.tokenHash = hashRefreshToken (generateRefreshToken demoUser 0 6) → r.isRevoked = true)
    ∧ (logout (generateRefreshToken demoUser 0 6)
        ({ users := [demoUser]
           refreshTokens := [{ id := 5, userId := 1
                               tokenHash := hashRefreshToken (generateRefreshToken demoUser 0 6)
                               userAgent := none, ipAddress := none, isRevoked := true
                               expiresAt := thirtyDaysMs, createdAt := 0 }]
           providerAccounts := [], fresh := 7 } : DB)
        = ({ users := [demoUser]
             refreshTokens := [{ id := 5, userId := 1
                                 tokenHash := hashRefreshToken (generateRefreshToken demoUser 0 6)
                                 userAgent := none, ipAddress := none, isRevoked := true
                                 expiresAt := thirtyDaysMs, createdAt := 0 }]
             providerAccounts := [], fresh := 7 } : DB)
      ∧ logout (generateRefreshToken demoUser 0 6)
          (logout (generateRefreshToken demoUser 0 6)
            ({ users := [demoUser]
               refreshTokens := [{ id := 5, userId := 1
                                   tokenHash := hashRefreshToken (generateRefreshToken demoUser 0 6)
                                   userAgent := none, ipAddress := none, isRevoked := true
                                   expiresAt := thirtyDaysMs, createdAt := 0 }]
               providerAccounts := [], fresh := 7 } : DB))
        = logout (generateRefreshToken demoUser 0 6)
            ({ users := [demoUser]
               refreshTokens := [{ id := 5, userId := 1
                                   tokenHash := hashRefreshToken (generateRefreshToken demoUser 0 6)
                                   userAgent := none, ipAddress := none, isRevoked := true
                                   expiresAt := thirtyDaysMs, createdAt := 0 }]
               providerAccounts := [], fresh := 7 } : DB)
      ∧ (∀ db2 : DB, logout (generateRefreshToken demoUser 0 6)
            (logout (generateRefreshToken demoUser 0 6) db2)
          = logout (generateRefreshToken demoUser 0 6) db2)) :=
  ⟨by decide, logout_idempotent (generateRefreshToken demoUser 0 6) _ (by decide)⟩

/-- C4: for a stored user holding a password hash, `login` succeeds with
the correct password and matching role; fails with the role-mismatch
error (issuing no tokens, store unchanged) when the requested role
differs; and fails with the invalid-credentials error on a wrong password
with matching role. -/
theorem login_password_role_cases (data : LoginRequest) (ua ip : Option String)
    (nowMs : Nat) (db : DB) (u : DBUser) (ph : BcryptHash)
    (hfind : findUserByEmail db (emailLower data.email) = some u)
    (hph : u.passwordHash = some ph) :
    (u.role = data.role → bcryptCompare data.password ph = true →
        (login data ua ip nowMs db).1.isOk = true)
    ∧ (u.role ≠ data.role →
        login data ua ip nowMs db = (Except.error AuthError.invalidRoleForAccount, db))
    ∧ (u.role = data.role → bcryptCompare data.password ph = false →
        login data ua ip nowMs db = (Except.error AuthError.invalidEmailOrPassword, db)) := by
  refine ⟨?_, ?_, ?_⟩
  · intro hrole hpw
    simp [login, hfind, hrole, hph, hpw, Except.isOk, Except.toBool]
  · intro hrole
    simp [login, hfind, hrole]
  · intro hrole hpw
    simp [login, hfind, hrole, hph, hpw]

/-- Witness for `login_password_role_cases` on `demoDB`. -/
theorem login_password_role_cases_witness :
    (findUserByEmail demoDB (emailLower demoLoginOk.email) = some demoUser)
    ∧ (demoUser.passwordHash = some (bcryptHash "Secret123!" 12))
    ∧ ((demoUser.role = demoLoginOk.role →
          bcryptCompare demoLoginOk.password (bcryptHash "Secret123!" 12) = true →
          (login demoLoginOk none none 0 demoDB).1.isOk = true)
      ∧ (demoUser.role ≠ demoLoginOk.role →
          login demoLoginOk none none 0 demoDB
            = (Except.error AuthError.invalidRoleForAccount, demoDB))
      ∧ (demoUser.role = demoLoginOk.role →
          bcryptCompare demoLoginOk.password (bcryptHash "Secret123!" 12) = false →
          login demoLoginOk none none 0 demoDB
            = (Except.error AuthError.invalidEmailOrPassword, demoDB))) :=
  ⟨by decide, by decide,
   login_password_role_cases demoLoginOk none none 0 demoDB demoUser
     (bcryptHash "Secret123!" 12) (by decide) (by decide)⟩

/-- C10: a role mismatch is decided before the OAuth-only check and before
password verification: whenever the stored role differs from the requested
one, `login` fails with the role-mismatch error, with no hypothesis on the
supplied password or on the presence of a password hash. -/
theorem login_role_checked_first (data : LoginRequest) (ua ip : Option String)
    (nowMs : Nat) (db : DB) (u : DBUser)
    (hfind : findUserByEmail db (emailLower data.email) = some u)
    (hrole : u.role ≠ data.role) :
    login data ua ip nowMs db = (Except.error AuthError.invalidRoleForAccount, db) := by
  simp [login, hfind, hrole]

/-- Witness for `login_role_checked_first`: a password-less (OAuth-only)
account requested under the wrong role still gets the role-mismatch
error. -/
theorem login_role_checked_first_witness :
    (findUserByEmail oauthDB (emailLower crossRoleLogin.email) = some oauthOnlyUser)
    ∧ (oauthOnlyUser.role ≠ crossRoleLogin.role)
    ∧ login crossRoleLogin none none 0 oauthDB
        = (Except.error AuthError.invalidRoleForAccount, oauthDB) :=
  ⟨by decide, by decide,
   login_role_checked_first crossRoleLogin none none 0 oauthDB oauthOnlyUser
     (by decide) (by decide)⟩

theorem googleAuthIssue_isOk (user : DBUser) (ua ip : Option String)
    (nowMs : Nat) (db : DB) :
    (googleAuthIssue user ua ip nowMs db).1.isOk = true := rfl

/-- The account phase of `googleAuth` can only fail with the role-mismatch
error; in particular it never reports an unverified email. -/
theorem googleAuthAccount_not_emailNotVerified (role : UserRole) (tokens : GoogleTokens)
    (email gname pid : String) (ua ip : Option String) (nowMs : Nat) (db : DB) :
    (googleAuthAccount role tokens email gname pid ua ip nowMs db).1
      ≠ Except.error AuthError.googleEmailNotVerified := by
  unfold googleAuthAccount
  cases hfind : findUserByEmail db (emailLower email) with
  | some user =>
    by_cases hrole : user.role = role
    · simp [hrole, googleAuthIssue]
    · simp [hrole, googleAuthIssue]
  | none =>
    simp [googleAuthIssue]

/-- C5: when the provider returned an access token, a profile carrying
`email_verified = false` makes `googleAuth` fail with the
email-not-verified error and leaves the store unchanged (no `User`, no
`ProviderAccount` is created); a profile with the flag absent is treated
as verified and can never produce that error. -/
theorem google_auth_email_verified_check (st : OAuthState) (tokens : GoogleTokens)
    (info : GoogleUserInfo) (ua ip : Option String) (nowMs : Nat) (db : DB)
    (haccess : strTruthy tokens.access_token = true) :
    (info.email_verified = some false →
        googleAuth st tokens info ua ip nowMs db
          = (Except.error AuthError.googleEmailNotVerified, db))
    ∧ (info.email_verified = none →
        (googleAuth st tokens info ua ip nowMs db).1
          ≠ Except.error AuthError.googleEmailNotVerified) := by
  constructor
  · intro hev
    simp [googleAuth, haccess, hev]
  · intro hev
    unfold googleAuth
    rw [if_neg (by simp [haccess])]
    rw [if_neg (by simp [hev])]
    split
    · simp
    · split
      · simp
      · split
        · simp
        · split
          · apply googleAuthAccount_not_emailNotVerified
          · simp

/-- A concrete OAuth state used by witnesses. -/
def demoState : OAuthState :=
  { role := UserRole.CUSTOMER, nonce := "n", redirectUrl := "/" }

/-- Concrete bridge tokens with an access token present. -/
def demoGTokens : GoogleTokens :=
  { access_token := some "ga", refresh_token := none, expiry_date := none }

/-- A profile whose email the provider reports as unverified. -/
def demoInfoUnverified : GoogleUserInfo :=
  { sub := some "g1", id := none, email := some "dave@example.com"
    email_verified := some false, name := some "Dave" }

/-- A profile with the `email_verified` field absent. -/
def demoInfoNoFlag : GoogleUserInfo :=
  { sub := some "g1", id := none, email := some "dave@example.com"
    email_verified := none, name := some "Dave" }

/-- Witness for `google_auth_email_verified_check` at both a
`some false` profile and a flag-less profile. -/
theorem google_auth_email_verified_check_witness :
    (strTruthy demoGTokens.access_token = true)
    ∧ ((demoInfoUnverified.email_verified = some false →
          googleAuth demoState demoGTokens demoInfoUnverified none none 0 demoDB
            = (Except.error AuthError.googleEmailNotVerified, demoDB))
      ∧ (demoInfoUnverified.email_verified = none →
          (googleAuth demoState demoGTokens demoInfoUnverified none none 0 demoDB).1
            ≠ Except.error AuthError.googleEmailNotVerified))
    ∧ ((demoInfoNoFlag.email_verified = some false →
          googleAuth demoState demoGTokens demoInfoNoFlag none none 0 demoDB
            = (Except.error AuthError.googleEmailNotVerified, demoDB))
      ∧ (demoInfoNoFlag.email_verified = none →
          (googleAuth demoState demoGTokens demoInfoNoFlag none none 0 demoDB).1
            ≠ Except.error AuthError.googleEmailNotVerified)) :=
  ⟨by decide,
   google_auth_email_verified_check demoState demoGTokens demoInfoUnverified
     none none 0 demoDB (by decide),
   google_auth_email_verified_check demoState demoGTokens demoInfoNoFlag
     none none 0 demoDB (by decide)⟩

/-! ## C3: the rotation race -/

/-- A user holding one active refresh token, for the interleaving
scenario. -/
def raceUser : DBUser :=
  { id := 0, email := "bob@example.com", name := none, passwordHash := none
    role := UserRole.CUSTOMER, emailVerified := true, lastLoginAt := none
    createdAt := 0, updatedAt := 0 }

/-- The raw refresh token presented by both concurrent calls. -/
def raceTokenA : SignedToken := generateRefreshToken raceUser 0 5

/-- The active stored record of `raceTokenA`. -/
def raceRecord : RefreshTokenRecord :=
  { id := 1, userId := 0, tokenHash := hashRefreshToken raceTokenA
    userAgent := none, ipAddress := none, isRevoked := false
    expiresAt := thirtyDaysMs, createdAt := 0 }

/-- A well-formed store holding `raceUser` and the single active record. -/
def raceDB : DB :=
  { users := [raceUser], refreshTokens := [raceRecord]
    providerAccounts := [], fresh := 10 }

/-- The interleaving in which both calls perform their verify-and-read
step before either performs its revoking update. -/
def raceSchedule : List Bool := [true, false, true, true, false, false]

/-- Both calls run to completion under `raceSchedule`. -/
def raceResult : RefreshPC × RefreshPC × DB :=
  runTwo raceTokenA none none 1000 raceSchedule
    (RefreshPC.start, RefreshPC.start, raceDB)

/-- Both calls run to completion sequentially: the first call performs all
three of its steps before the second starts. -/
def seqResult : RefreshPC × RefreshPC × DB :=
  runTwo raceTokenA none none 1000 [true, true, true, false, false, false]
    (RefreshPC.start, RefreshPC.start, raceDB)

/-- C3 (code bug): on the well-formed store `raceDB` holding a single
active record, two concurrent `refreshToken` calls presenting the same
raw token BOTH succeed under the interleaving `raceSchedule` in which both
verify-and-read steps run before either revoking update — the
read-then-revoke-then-insert sequence is not atomic.  Under the fully
sequential schedule the loser does fail with the invalid-token error, so
the interleaving is what breaks the claimed exactly-one-success
guarantee. -/
theorem concurrent_refresh_double_success :
    raceDB.Wf
    ∧ raceRecord.isRevoked = false
    ∧ raceResult.1.isSuccess = true
    ∧ raceResult.2.1.isSuccess = true
    ∧ seqResult.1.isSuccess = true
    ∧ seqResult.2.1 = RefreshPC.failed AuthError.invalidRefreshToken := by
  decide

/-! ## C2: what the cookie layer stores -/

/-- An empty store. -/
def emptyDB : DB :=
  { users := [], refreshTokens := [], providerAccounts := [], fresh := 0 }

/-- A concrete registration request. -/
def regData : RegisterRequest :=
  { email := "eve@example.com", password := "Password1!", name := some "Eve"
    role := UserRole.CUSTOMER }

/-- The user row `register regData` creates in `emptyDB`. -/
def regUser : DBUser :=
  { id := 0, email := "eve@example.com", name := some "Eve"
    passwordHash := some (bcryptHash "Password1!" 12), role := UserRole.CUSTOMER
    emailVerified := false, lastLoginAt := none, createdAt := 0, updatedAt := 0 }

/-- The raw refresh token that call issues (user row `regUser`, jwtid 1). -/
def regIssuedRefresh : SignedToken := generateRefreshToken regUser 0 1

/-- The result of the register request on the HTTP layer. -/
def regOut : Except AuthError (List SetCookie × PublicUser) × DB :=
  registerHandler regData none none 0 emptyDB

/-- C2 (code bug): on every successful register, login and refresh
request the handler does set an `accessToken` and a `refreshToken`
cookie, but it passes `result.accessToken` to both setters, so the
`refreshToken` cookie holds the ACCESS token: its payload type is
'access', it is not the refresh token the call issued (whose hash is what
the store records), and presenting the cookie's value for rotation fails
with the invalid-token error. -/
theorem refresh_cookie_holds_access_token :
    (regOut.1.map (fun out => out.1.map (fun c => c.name))
        = Except.ok ["accessToken", "refreshToken"])
    ∧ (regOut.1.map (fun out => out.1.map (fun c => c.value.payload.type))
        = Except.ok [TokenType.access, TokenType.access])
    ∧ (regOut.1.map (fun out => out.1.map (fun c => decide (c.value = regIssuedRefresh)))
        = Except.ok [false, false])
    ∧ (regOut.2.refreshTokens.map (fun r => r.tokenHash)
        = [hashRefreshToken regIssuedRefresh])
    ∧ ((refreshToken (generateAccessToken regUser 0) none none 0 regOut.2).1
        = Except.error AuthError.invalidRefreshToken)
    ∧ ((loginHandler { email := "eve@example.com", password := "Password1!"
                       role := UserRole.CUSTOMER } none none 0 regOut.2).1.map
          (fun out => out.1.map (fun c => (c.name, c.value.payload.type)))
        = Except.ok [("accessToken", TokenType.access), ("refreshToken", TokenType.access)])
    ∧ ((refreshHandler regIssuedRefresh none none 0 regOut.2).1.map
          (fun out => out.1.map (fun c => (c.name, c.value.payload.type)))
        = Except.ok [("accessToken", TokenType.access), ("refreshToken", TokenType.access)]) := by
  decide

/-! ## C8: only the hash of a refresh token is persisted -/

/-- The newest refresh-token row of a store is the SHA-256 image of a
freshly generated raw refresh token: the `tokenHash` column (the only
token-bearing field of the row) holds `hashRefreshToken` of the raw
token, not the raw token itself. -/
def newestRowStoresHash (nowMs : Nat) (db2 : DB) : Prop :=
  ∃ u jti, db2.refreshTokens.getLast?.map (fun r => r.tokenHash)
      = some (hashRefreshToken (generateRefreshToken u nowMs jti))

theorem googleAuthIssue_newest (user : DBUser) (ua ip : Option String)
    (nowMs : Nat) (db : DB) :
    newestRowStoresHash nowMs (googleAuthIssue user ua ip nowMs db).2 := by
  refine ⟨user, db.fresh, ?_⟩
  simp [googleAuthIssue, List.getLast?_concat, generateTokenPair]

/-- The function `googleAuthAccount` either completes through `googleAuthIssue` on some
user and intermediate store, or fails with the role-mismatch error. -/
theorem googleAuthAccount_result (role : UserRole) (tokens : GoogleTokens)
    (email gname pid : String) (ua ip : Option String) (nowMs : Nat) (db : DB) :
    (∃ u db1, googleAuthAccount role tokens email gname pid ua ip nowMs db
        = googleAuthIssue u ua ip nowMs db1)
    ∨ googleAuthAccount role tokens email gname pid ua ip nowMs db
        = (Except.error AuthError.invalidRoleForAccount, db) := by
  unfold googleAuthAccount
  repeat' split
  all_goals first
    | exact Or.inl ⟨_, _, rfl⟩
    | exact Or.inr rfl

theorem googleAuthAccount_newest (role : UserRole) (tokens : GoogleTokens)
    (email gname pid : String) (ua ip : Option String) (nowMs : Nat) (db : DB)
    (hok : (googleAuthAccount role tokens email gname pid ua ip nowMs db).1.isOk = true) :
    newestRowStoresHash nowMs (googleAuthAccount role tokens email gname pid ua ip nowMs db).2 := by
  rcases googleAuthAccount_result role tokens email gname pid ua ip nowMs db with ⟨u, db1, heq⟩ | heq
  · rw [heq]
    exact googleAuthIssue_newest u ua ip nowMs db1
  · rw [heq] at hok
    simp [Except.isOk, Except.toBool] at hok

/-- The function `googleAuth` either delegates to `googleAuthAccount` on the validated
profile fields, or fails before touching the store. -/
theorem googleAuth_result (st : OAuthState) (tokens : GoogleTokens)
    (info : GoogleUserInfo) (ua ip : Option String) (nowMs : Nat) (db : DB) :
    (∃ email gname pid, googleAuth st tokens info ua ip nowMs db
        = googleAuthAccount st.role tokens email gname pid ua ip nowMs db)
    ∨ ∃ e, googleAuth st tokens info ua ip nowMs db = (Except.error e, db) := by
  unfold googleAuth
  repeat' split
  all_goals first
    | exact Or.inl ⟨_, _, _, rfl⟩
    | exact Or.inr ⟨_, rfl⟩

/-- The verify-and-read step either reads an active record (moving to the
revoking update) or fails; it never changes the store. -/
theorem refreshStep_start_cases (tok : SignedToken) (ua ip : Option String)
    (nowMs : Nat) (db : DB) :
    (∃ rid u, refreshStep tok ua ip nowMs RefreshPC.start db
        = (RefreshPC.revokeOld rid u, db))
    ∨ (∃ e, refreshStep tok ua ip nowMs RefreshPC.start db
        = (RefreshPC.failed e, db)) := by
  simp only [refreshStep]
  repeat' split
  all_goals first
    | exact Or.inl ⟨_, _, rfl⟩
    | exact Or.inr ⟨_, rfl⟩

theorem register_result (data : RegisterRequest) (ua ip : Option String)
    (nowMs : Nat) (db : DB) :
    register data ua ip nowMs db = (Except.error AuthError.userAlreadyExists, db)
    ∨ newestRowStoresHash nowMs (register data ua ip nowMs db).2 := by
  unfold register
  split
  · exact Or.inl rfl
  · refine Or.inr ⟨⟨db.fresh, emailLower data.email, data.name,
        some (bcryptHash data.password 12), data.role, false, none, nowMs, nowMs⟩,
      db.fresh + 1, ?_⟩
    simp [List.getLast?_concat, generateTokenPair]

theorem register_newest (data : RegisterRequest) (ua ip : Option String)
    (nowMs : Nat) (db : DB)
    (hok : (register data ua ip nowMs db).1.isOk = true) :
    newestRowStoresHash nowMs (register data ua ip nowMs db).2 := by
  rcases register_result data ua ip nowMs db with heq | h
  · rw [heq] at hok
    simp [Except.isOk, Except.toBool] at hok
  · exact h

theorem login_result (data : LoginRequest) (ua ip : Option String)
    (nowMs : Nat) (db : DB) :
    (∃ e, login data ua ip nowMs db = (Except.error e, db))
    ∨ newestRowStoresHash nowMs (login data ua ip nowMs db).2 := by
  unfold login
  split
  · exact Or.inl ⟨_, rfl⟩
  · rename_i user heq
    split
    · exact Or.inl ⟨_, rfl⟩
    · split
      · exact Or.inl ⟨_, rfl⟩
      · split
        · exact Or.inl ⟨_, rfl⟩
        · refine Or.inr ⟨user, db.fresh, ?_⟩
          simp [List.getLast?_concat, generateTokenPair]

theorem login_newest (data : LoginRequest) (ua ip : Option String)
    (nowMs : Nat) (db : DB)
    (hok : (login data ua ip nowMs db).1.isOk = true) :
    newestRowStoresHash nowMs (login data ua ip nowMs db).2 := by
  rcases login_result data ua ip nowMs db with ⟨e, heq⟩ | h
  · rw [heq] at hok
    simp [Except.isOk, Except.toBool] at hok
  · exact h

theorem googleAuth_newest (st : OAuthState) (tokens : GoogleTokens)
    (info : GoogleUserInfo) (ua ip : Option String) (nowMs : Nat) (db : DB)
    (hok : (googleAuth st tokens info ua ip nowMs db).1.isOk = true) :
    newestRowStoresHash nowMs (googleAuth st tokens info ua ip nowMs db).2 := by
  rcases googleAuth_result st tokens info ua ip nowMs db with ⟨email, gname, pid, heq⟩ | ⟨e, heq⟩
  · rw [heq] at hok ⊢
    exact googleAuthAccount_newest st.role tokens email gname pid ua ip nowMs db hok
  · rw [heq] at hok
    simp [Except.isOk, Except.toBool] at hok

theorem refreshToken_newest (tok : SignedToken) (ua ip : Option String)
    (nowMs : Nat) (db : DB)
    (hok : (refreshToken tok ua ip nowMs db).1.isOk = true) :
    newestRowStoresHash nowMs (refreshToken tok ua ip nowMs db).2 := by
  rcases refreshStep_start_cases tok ua ip nowMs db with ⟨rid, u, h⟩ | ⟨e, h⟩
  · rw [refreshToken_of_start_ok tok ua ip nowMs db rid u h]
    refine ⟨u, db.fresh, ?_⟩
    simp [rotatedRecord, List.getLast?_concat]
  · rw [refreshToken_of_start_failed tok ua ip nowMs db e h] at hok
    simp [Except.isOk, Except.toBool] at hok

/-- C8: `hashRefreshToken` is deterministic and collision-free (so the
digest can serve as the unique lookup key), and each of the four storing
operations — register, login, googleAuth, refresh — persists, as the new
row, exactly the digest of the raw refresh token generated by that call;
the raw token itself is never written (the row's only token-bearing
column has digest type). -/
theorem refresh_token_hash_persisted (dataR : RegisterRequest) (dataL : LoginRequest)
    (st : OAuthState) (tokens : GoogleTokens) (info : GoogleUserInfo)
    (ua ip : Option String) (nowR nowL nowG nowT : Nat)
    (dbR dbL dbG dbT : DB) (tok : SignedToken)
    (hR : (register dataR ua ip nowR dbR).1.isOk = true)
    (hL : (login dataL ua ip nowL dbL).1.isOk = true)
    (hG : (googleAuth st tokens info ua ip nowG dbG).1.isOk = true)
    (hT : (refreshToken tok ua ip nowT dbT).1.isOk = true) :
    (∀ t1 t2 : SignedToken, hashRefreshToken t1 = hashRefreshToken t2 ↔ t1 = t2)
    ∧ newestRowStoresHash nowR (register dataR ua ip nowR dbR).2
    ∧ newestRowStoresHash nowL (login dataL ua ip nowL dbL).2
    ∧ newestRowStoresHash nowG (googleAuth st tokens info ua ip nowG dbG).2
    ∧ newestRowStoresHash nowT (refreshToken tok ua ip nowT dbT).2 :=
  ⟨fun t1 t2 => by simp [hashRefreshToken, Digest.mk.injEq],
   register_newest dataR ua ip nowR dbR hR,
   login_newest dataL ua ip nowL dbL hL,
   googleAuth_newest st tokens info ua ip nowG dbG hG,
   refreshToken_newest tok ua ip nowT dbT hT⟩

/-- Witness for `refresh_token_hash_persisted`: concrete successful runs
of all four operations. -/
theorem refresh_token_hash_persisted_witness :
    ((register regData none none 0 emptyDB).1.isOk = true)
    ∧ ((login demoLoginOk none none 0 demoDB).1.isOk = true)
    ∧ ((googleAuth demoState demoGTokens demoInfoNoFlag none none 0 demoDB).1.isOk = true)
    ∧ ((refreshToken raceTokenA none none 1000 raceDB).1.isOk = true)
    ∧ (newestRowStoresHash 0 (register regData none none 0 emptyDB).2
      ∧ newestRowStoresHash 0 (login demoLoginOk none none 0 demoDB).2
      ∧ newestRowStoresHash 0 (googleAuth demoState demoGTokens demoInfoNoFlag none none 0 demoDB).2
      ∧ newestRowStoresHash 1000 (refreshToken raceTokenA none none 1000 raceDB).2) :=
  ⟨by decide, by decide, by decide, by decide,
   (refresh_token_hash_persisted regData demoLoginOk demoState demoGTokens demoInfoNoFlag
      none none 0 0 0 1000 emptyDB demoDB demoDB raceDB raceTokenA
      (by decide) (by decide) (by decide) (by decide)).2⟩

/-! ## C1 and C6: rotation and revocation -/

theorem revoke_preserves_hash (i : Nat) :
    ∀ r : RefreshTokenRecord,
      ((fun r : RefreshTokenRecord => if r.id == i then { r with isRevoked := true } else r) r).tokenHash
        = r.tokenHash := by
  intro r
  by_cases hc : r.id = i <;> simp [hc]

theorem logoutAll_preserves_hash (uid : Nat) :
    ∀ r : RefreshTokenRecord,
      ((fun r : RefreshTokenRecord => if r.userId == uid then { r with isRevoked := true } else r) r).tokenHash
        = r.tokenHash := by
  intro r
  by_cases hc : r.userId = uid <;> simp [hc]

/-- A refresh call presenting a token whose stored record is revoked fails
with the generic invalid-token error. -/
theorem refresh_fails_on_revoked (tok : SignedToken) (ua ip : Option String)
    (now2 : Nat) (db2 : DB) (r1 : RefreshTokenRecord)
    (hfind : findRefreshTokenByHash db2 (hashRefreshToken tok) = some r1)
    (hrev : r1.isRevoked = true) :
    (refreshToken tok ua ip now2 db2).1 = Except.error AuthError.invalidRefreshToken := by
  rw [refreshToken_of_start_failed tok ua ip now2 db2 AuthError.invalidRefreshToken
       (refreshStep_start_revoked tok ua ip now2 db2 r1 hfind hrev)]

/-- A refresh call presenting a verifiable token whose stored record is
active and unexpired succeeds. -/
theorem refresh_succeeds_on_active (tok : SignedToken) (ua ip : Option String)
    (now2 : Nat) (db2 : DB) (r1 : RefreshTokenRecord) (u : DBUser)
    (hver : verifyRefreshToken tok now2 = Except.ok tok.payload)
    (hfind : findRefreshTokenByHash db2 (hashRefreshToken tok) = some r1)
    (hact : r1.isRevoked = false)
    (hexp : ¬ r1.expiresAt < now2)
    (huser : findUserById db2 r1.userId = some u) :
    (refreshToken tok ua ip now2 db2).1.isOk = true := by
  rw [refreshToken_of_start_ok tok ua ip now2 db2 r1.id u
       (refreshStep_start_ok tok ua ip now2 db2 r1 u hver hfind hact hexp huser)]
  rfl

/-- C1 (amended): on a well-formed store, a refresh call on token A whose
record is active succeeds; afterwards any refresh presenting token A again
fails — with the generic 'Invalid refresh token' error, since the code
folds the revoked case into the same error it uses for unknown tokens —
while refreshing the newly issued token B (jwtid `db.fresh`) succeeds
within its lifetime.  A rotated token is never silently re-issued. -/
theorem refresh_rotation_invariant
    (tok : SignedToken) (ua ip ua2 ip2 : Option String) (nowMs now2 : Nat)
    (db : DB) (r0 : RefreshTokenRecord) (u : DBUser)
    (hwf : db.Wf)
    (hver : verifyRefreshToken tok nowMs = Except.ok tok.payload)
    (hfind : findRefreshTokenByHash db (hashRefreshToken tok) = some r0)
    (hact : r0.isRevoked = false)
    (hexp : ¬ r0.expiresAt < nowMs)
    (huser : findUserById db r0.userId = some u)
    (hnow2a : now2 / 1000 < nowMs / 1000 + REFRESH_TOKEN_TTL_DAYS * 24 * 60 * 60)
    (hnow2b : ¬ nowMs + thirtyDaysMs < now2) :
    ((refreshToken tok ua ip nowMs db).1.isOk = true)
    ∧ ((refreshToken tok ua2 ip2 now2 (refreshToken tok ua ip nowMs db).2).1
        = Except.error AuthError.invalidRefreshToken)
    ∧ ((refreshToken (generateRefreshToken u nowMs db.fresh) ua2 ip2 now2
          (refreshToken tok ua ip nowMs db).2).1.isOk = true) := by
  obtain ⟨hnd, hndid, hidlt, hjti, hfk⟩ := hwf
  have hstart := refreshStep_start_ok tok ua ip nowMs db r0 u hver hfind hact hexp huser
  have heq := refreshToken_of_start_ok tok ua ip nowMs db r0.id u hstart
  have hmapres : (db.refreshTokens.map (fun r =>
        if r.id == r0.id then { r with isRevoked := true } else r)).find?
        (fun r => r.tokenHash == hashRefreshToken tok)
      = some ({ r0 with isRevoked := true }) := by
    rw [find?_hash_map db.refreshTokens _ (revoke_preserves_hash r0.id) (hashRefreshToken tok)]
    rw [show db.refreshTokens.find? (fun r => r.tokenHash == hashRefreshToken tok) = some r0
          from hfind]
    simp
  refine ⟨?_, ?_, ?_⟩
  · rw [heq]
    rfl
  · rw [heq]
    apply refresh_fails_on_revoked tok ua2 ip2 now2 _ ({ r0 with isRevoked := true })
    · show ((db.refreshTokens.map fun r =>
            if r.id == r0.id then { r with isRevoked := true } else r)
          ++ [rotatedRecord u ua ip nowMs db]).find?
          (fun r => r.tokenHash == hashRefreshToken tok)
        = some ({ r0 with isRevoked := true })
      rw [List.find?_append, hmapres]
      rfl
    · simp
  · rw [heq]
    have huid : u.id = r0.userId := by
      have h1 := List.find?_some huser
      simpa using h1
    apply refresh_succeeds_on_active (generateRefreshToken u nowMs db.fresh) ua2 ip2 now2 _
      (rotatedRecord u ua ip nowMs db) u
    · simp [verifyRefreshToken, jwtVerify, generateRefreshToken, hnow2a]
    · have hnone : db.refreshTokens.find?
          (fun r => r.tokenHash == hashRefreshToken (generateRefreshToken u nowMs db.fresh))
          = none := by
        apply List.find?_eq_none.mpr
        intro r hr hbeq
        have heqd : r.tokenHash = hashRefreshToken (generateRefreshToken u nowMs db.fresh) := by
          simpa using hbeq
        have hj := hjti r hr
        unfold jtiBelow at hj
        rw [heqd] at hj
        simp [hashRefreshToken, generateRefreshToken] at hj
      show ((db.refreshTokens.map fun r =>
            if r.id == r0.id then { r with isRevoked := true } else r)
          ++ [rotatedRecord u ua ip nowMs db]).find?
          (fun r => r.tokenHash == hashRefreshToken (generateRefreshToken u nowMs db.fresh))
        = some (rotatedRecord u ua ip nowMs db)
      rw [List.find?_append]
      rw [find?_hash_map db.refreshTokens _ (revoke_preserves_hash r0.id) _]
      rw [hnone]
      simp [rotatedRecord]
    · rfl
    · simpa [rotatedRecord] using hnow2b
    · show db.users.find? (fun x => x.id == (rotatedRecord u ua ip nowMs db).userId) = some u
      have hru : (rotatedRecord u ua ip nowMs db).userId = r0.userId := by
        simp [rotatedRecord, huid]
      rw [hru]
      exact huser

/-- Witness for `refresh_rotation_invariant` on the concrete store
`raceDB` at clock 1000. -/
theorem refresh_rotation_invariant_witness :
    raceDB.Wf
    ∧ (findRefreshTokenByHash raceDB (hashRefreshToken raceTokenA) = some raceRecord)
    ∧ (raceRecord.isRevoked = false)
    ∧ (((refreshToken raceTokenA none none 1000 raceDB).1.isOk = true)
      ∧ ((refreshToken raceTokenA none none 1000
            (refreshToken raceTokenA none none 1000 raceDB).2).1
          = Except.error AuthError.invalidRefreshToken)
      ∧ ((refreshToken (generateRefreshToken raceUser 1000 raceDB.fresh) none none 1000
            (refreshToken raceTokenA none none 1000 raceDB).2).1.isOk = true)) :=
  ⟨by decide, by decide, by decide,
   refresh_rotation_invariant raceTokenA none none none none 1000 1000 raceDB raceRecord raceUser
     (by decide) (by decide) (by decide) (by decide) (by decide) (by decide)
     (by decide) (by decide)⟩

/-- The store after rotating `raceTokenA` at time 500. -/
def rotatedDB : DB := (refreshToken raceTokenA none none 500 raceDB).2

/-- A refresh token that was never issued against `raceDB` (jwtid 999 has
no stored record). -/
def unknownToken : SignedToken := generateRefreshToken raceUser 0 999

/-- C1 counterexample: the claim requires the post-rotation failure to be
`TokenRevoked`, a failure kind the specification's taxonomy distinguishes
from `InvalidToken` (its error for a missing record).  The code throws
the identical error — 'Invalid refresh token' — for the rotated token and
for a token that was never issued, so the claimed distinct `TokenRevoked`
failure does not exist; the call fails, but not with `TokenRevoked`. -/
theorem refresh_revoked_error_not_distinct :
    ((refreshToken raceTokenA none none 1000 rotatedDB).1
        = Except.error AuthError.invalidRefreshToken)
    ∧ ((refreshToken unknownToken none none 1000 rotatedDB).1
        = Except.error AuthError.invalidRefreshToken)
    ∧ ((refreshToken raceTokenA none none 1000 rotatedDB).1
        = (refreshToken unknownToken none none 1000 rotatedDB).1) := by
  decide

/-- C6 (amended): `logoutAll` marks every record owned by the user
revoked, and any subsequent refresh presenting a token whose (previously
active) record belongs to that user fails — with the generic
'Invalid refresh token' error the code uses for revoked and unknown
tokens alike. -/
theorem logout_all_then_refresh_fails (uid : Nat) (db : DB) (hwf : db.Wf) :
    (∀ r ∈ (logoutAll uid db).refreshTokens, r.userId = uid → r.isRevoked = true)
    ∧ (∀ (tok : SignedToken) (ua ip : Option String) (nowMs : Nat)
         (r0 : RefreshTokenRecord),
        r0 ∈ db.refreshTokens → r0.userId = uid → r0.isRevoked = false →
        hashRefreshToken tok = r0.tokenHash →
        (refreshToken tok ua ip nowMs (logoutAll uid db)).1
          = Except.error AuthError.invalidRefreshToken) := by
  obtain ⟨hnd, hndid, hidlt, hjti, hfk⟩ := hwf
  constructor
  · intro r hr hruid
    have hshape : (logoutAll uid db).refreshTokens
        = db.refreshTokens.map (fun x =>
            if x.userId == uid then { x with isRevoked := true } else x) := rfl
    rw [hshape] at hr
    obtain ⟨r1, hr1, hfr⟩ := List.mem_map.mp hr
    subst hfr
    by_cases hc : r1.userId = uid
    · simp [hc]
    · rw [if_neg (by simp [hc])] at hruid ⊢
      exact absurd hruid hc
  · intro tok ua ip nowMs r0 hr0 huid0 hact0 hhash
    apply refresh_fails_on_revoked tok ua ip nowMs _ ({ r0 with isRevoked := true })
    · show (db.refreshTokens.map (fun x =>
            if x.userId == uid then { x with isRevoked := true } else x)).find?
          (fun r => r.tokenHash == hashRefreshToken tok)
        = some ({ r0 with isRevoked := true })
      rw [find?_hash_map db.refreshTokens _ (logoutAll_preserves_hash uid) (hashRefreshToken tok)]
      rw [hhash]
      rw [find?_of_hash_nodup db.refreshTokens r0 hnd hr0]
      simp [huid0]
    · simp

/-- A rider holding three active refresh tokens. -/
def u6 : DBUser :=
  { id := 7, email := "frank@example.com", name := some "Frank"
    passwordHash := none, role := UserRole.RIDER
    emailVerified := true, lastLoginAt := none, createdAt := 0, updatedAt := 0 }

def tok6a : SignedToken := generateRefreshToken u6 0 1

def tok6b : SignedToken := generateRefreshToken u6 0 2

def tok6c : SignedToken := generateRefreshToken u6 0 3

/-- The store holding `u6`'s three active refresh-token records. -/
def db6 : DB :=
  { users := [u6]
    refreshTokens :=
      [{ id := 4, userId := 7, tokenHash := hashRefreshToken tok6a
         userAgent := none, ipAddress := none, isRevoked := false
         expiresAt := thirtyDaysMs, createdAt := 0 },
       { id := 5, userId := 7, tokenHash := hashRefreshToken tok6b
         userAgent := none, ipAddress := none, isRevoked := false
         expiresAt := thirtyDaysMs, createdAt := 0 },
       { id := 6, userId := 7, tokenHash := hashRefreshToken tok6c
         userAgent := none, ipAddress := none, isRevoked := false
         expiresAt := thirtyDaysMs, createdAt := 0 }]
    providerAccounts := [], fresh := 8 }

/-- Witness for `logout_all_then_refresh_fails`: after `logoutAll` on a
user with three active tokens, all three subsequently fail `refresh`. -/
theorem logout_all_then_refresh_fails_witness :
    db6.Wf
    ∧ (∀ r ∈ (logoutAll 7 db6).refreshTokens, r.userId = 7 → r.isRevoked = true)
    ∧ ((refreshToken tok6a none none 0 (logoutAll 7 db6)).1
        = Except.error AuthError.invalidRefreshToken)
    ∧ ((refreshToken tok6b none none 0 (logoutAll 7 db6)).1
        = Except.error AuthError.invalidRefreshToken)
    ∧ ((refreshToken tok6c none none 0 (logoutAll 7 db6)).1
        = Except.error AuthError.invalidRefreshToken) :=
  ⟨by decide,
   (logout_all_then_refresh_fails 7 db6 (by decide)).1,
   (logout_all_then_refresh_fails 7 db6 (by decide)).2 tok6a none none 0
     (db6.refreshTokens.get ⟨0, by decide⟩) (by decide) (by decide) (by decide) (by decide),
   (logout_all_then_refresh_fails 7 db6 (by decide)).2 tok6b none none 0
     (db6.refreshTokens.get ⟨1, by decide⟩) (by decide) (by decide) (by decide) (by decide),
   (logout_all_then_refresh_fails 7 db6 (by decide)).2 tok6c none none 0
     (db6.refreshTokens.get ⟨2, by decide⟩) (by decide) (by decide) (by decide) (by decide)⟩

/-- C6 counterexample: after `logoutAll`, presenting one of the revoked
tokens yields the very same error value as presenting a token that was
never issued, so the distinct `TokenRevoked` failure the claim names does
not exist in the code; the calls do fail, but with the generic
invalid-token error. -/
theorem logout_all_error_not_distinct :
    ((refreshToken tok6a none none 0 (logoutAll 7 db6)).1
        = Except.error AuthError.invalidRefreshToken)
    ∧ ((refreshToken (generateRefreshToken u6 0 999) none none 0 (logoutAll 7 db6)).1
        = Except.error AuthError.invalidRefreshToken)
    ∧ ((refreshToken tok6a none none 0 (logoutAll 7 db6)).1
        = (refreshToken (generateRefreshToken u6 0 999) none none 0 (logoutAll 7 db6)).1) := by
  decide

end Shoppr
